import Mathlib

/-!
Shallow embedding of the kinematic actor / collision core of the `pucky`
2D-platformer prototype (TypeScript), for checking its natural-language
specification.

Numbers are embedded as rationals (`ℚ`): every constant appearing in the
source (0.135, 0.8, 0.5, ...) is an exact decimal, the code performs only
+, -, *, min, abs and comparisons on them, and the claims under scrutiny
are about the algorithmic structure of the integrator and sweep, not about
IEEE rounding.

Sources embedded:
- `src/game/entities/Actor.ts` (class `Actor`): tuning record,
  `updateMovementPhysics`, `dampen`, `_move`, `moveX`, `moveY`,
  `getSolidBox`, `tryCornerWiggle`, `applyJump`.
- `src/game/entities/Player.ts` (class `Player`): `move`,
  `triggerTurnSkid`, `tryStartJump`, `startJump`, `updateJumpTimers`
  and the TUNING constants.
- `src/game/screens/TestScreen.ts`: `collidesAt` (the collision world),
  including the hazard-callback side effect, which is made explicit as an
  invocation counter.
- `src/game/entities/Solid.ts`: `Solid` as an immutable rectangle with a
  hazard flag.

Rendering, sprite animation and the wall-clock deferred visual sequences
(`Actions`/`setTimeout` bodies) are not part of the simulation state; where
a deferred callback mutates simulation state (skid commit, jump impulse)
the mutation is modelled as an explicit function.
-/

namespace Pucky

/-- Math.sign of JavaScript on rationals: 1, -1 or 0. -/
def mathSign (q : ℚ) : ℚ :=
  if 0 < q then 1 else if q < 0 then -1 else 0

/-- Hitbox description from `ActorTuning.solidBox`. -/
structure SolidBox where
  offsetX : ℚ
  offsetY : ℚ
  width : ℚ
  height : ℚ
deriving DecidableEq

/-- Variable-jump-height options from `ActorTuning.shortHop`. -/
structure ShortHop where
  enabled : Bool
  earlyReleaseGravityMultiplier : ℚ
deriving DecidableEq

/-- Tuning parameters of `Actor` (Actor.ts, interface `ActorTuning`). -/
structure ActorTuning where
  solidBox : SolidBox
  maxSpeedX : ℚ
  gravity : ℚ
  gravityUpMultiplier : ℚ
  easeGround : ℚ
  easeTurnMultiplier : ℚ
  easeAir : ℚ
  airSpeedFactor : ℚ
  shortHop : ShortHop
deriving DecidableEq

/-- TUNING_DEFAULTS of Actor.ts; the `Player` constructor passes exactly
the same values explicitly. -/
def TUNING_DEFAULTS : ActorTuning where
  solidBox := { offsetX := -16, offsetY := -64, width := 32, height := 56 }
  maxSpeedX := 3
  gravity := 1/2
  gravityUpMultiplier := 3/5
  easeGround := 27/200
  easeTurnMultiplier := 1/4
  easeAir := 3/10
  airSpeedFactor := 9/10
  shortHop := { enabled := true, earlyReleaseGravityMultiplier := 2 }

/-- Mutable simulation state of an `Actor`: position (`this.x`, `this.y`
from the scene-graph container, used as plain coordinates), velocity
`vel`, `isOnGround`, `wasOnGround` and the input direction `inputX`
(typed `-1 | 0 | 1` in the source, so an `Int` here with side conditions
where a claim needs them). -/
structure ActorState where
  x : ℚ
  y : ℚ
  velX : ℚ
  velY : ℚ
  isOnGround : Bool
  wasOnGround : Bool
  inputX : Int
deriving DecidableEq

/-- Axis argument of `Actor._move`. -/
inductive Axis where
  | x
  | y
deriving DecidableEq

/-- Coordinate of the state along an axis. -/
def ActorState.pos (s : ActorState) : Axis → ℚ
  | .x => s.x
  | .y => s.y

/-- Velocity component of the state along an axis. -/
def ActorState.vel (s : ActorState) : Axis → ℚ
  | .x => s.velX
  | .y => s.velY

/-- Actor.getSolidBox: the solid hitbox the actor would occupy with its
origin at `(px, py)`. -/
def getSolidBox (t : ActorTuning) (px py : ℚ) : ℚ × ℚ × ℚ × ℚ :=
  (px + t.solidBox.offsetX, py + t.solidBox.offsetY, t.solidBox.width, t.solidBox.height)

/-- Collision predicate type (`CollisionCheckFn` in Actor.ts). -/
def CollisionCheckFn : Type := ℚ → ℚ → ℚ → ℚ → Bool

/-- Whether the collision predicate blocks the actor-origin position
`(px, py)`: the query `_move` issues for a candidate position. -/
def blockedAt (check : CollisionCheckFn) (t : ActorTuning) (px py : ℚ) : Bool :=
  let b := getSolidBox t px py
  check b.1 b.2.1 b.2.2.1 b.2.2.2

/-- Loop body of `Actor._move` (the `while (remaining > 0)` loop):
sub-step by at most `STEP_RESOLUTION = 1` toward `sgn`, probing the
candidate hitbox before committing; on a blocked probe zero the moved
axis velocity component and report a hit. -/
def moveGo (check : CollisionCheckFn) (t : ActorTuning) (axis : Axis) (sgn : ℚ)
    (s : ActorState) (remaining : ℚ) : ActorState × Bool :=
  if h : remaining ≤ 0 then (s, false)
  else
    let step := min 1 remaining
    let next := match axis with
      | .x => s.x + step * sgn
      | .y => s.y + step * sgn
    let blocked := match axis with
      | .x => blockedAt check t next s.y
      | .y => blockedAt check t s.x next
    if blocked then
      (match axis with
        | .x => { s with velX := 0 }
        | .y => { s with velY := 0 }, true)
    else
      moveGo check t axis sgn
        (match axis with
          | .x => { s with x := next }
          | .y => { s with y := next })
        (remaining - step)
termination_by (⌈remaining⌉₊)
decreasing_by
  push_neg at h
  rcases le_or_lt remaining 1 with h1 | h1
  · have : remaining - min 1 remaining = 0 := by
      rw [min_eq_right h1]; ring
    rw [this]
    simpa using Nat.ceil_pos.mpr h
  · have hm : min 1 remaining = 1 := min_eq_left h1.le
    rw [hm]
    have hpos : 1 < ⌈remaining⌉₊ := Nat.lt_ceil.mpr (by exact_mod_cast h1)
    have hcast : ((⌈remaining⌉₊ - 1 : ℕ) : ℚ) = (⌈remaining⌉₊ : ℚ) - 1 := by
      have h2 : (1 : ℕ) ≤ ⌈remaining⌉₊ := hpos.le
      push_cast [Nat.cast_sub h2]
      ring
    have hle : ⌈remaining - 1⌉₊ ≤ ⌈remaining⌉₊ - 1 := by
      apply Nat.ceil_le.mpr
      rw [hcast]
      have := Nat.le_ceil remaining
      linarith
    exact lt_of_le_of_lt hle (Nat.sub_lt (by omega) (by omega))

/-- Actor._move: sweep along `axis` by `amount`, sub-stepping at
resolution 1; the loop runs on `remaining = |amount|` with direction
`sign = Math.sign(amount)` and reports whether a collision stopped it. -/
def actorMove (check : CollisionCheckFn) (t : ActorTuning) (axis : Axis)
    (s : ActorState) (amount : ℚ) : ActorState × Bool :=
  moveGo check t axis (mathSign amount) s |amount|

/-- Actor.moveX: horizontal sweep by `vel.x * dt` (the hit flag is
discarded by the caller in the source). -/
def moveX (check : CollisionCheckFn) (t : ActorTuning) (dt : ℚ) (s : ActorState) : ActorState :=
  (actorMove check t .x s (s.velX * dt)).1

/-- Actor.tryCornerWiggle: when an ascending sweep hit a ceiling, probe
the two leading top corners; if exactly one is blocked and a lateral
relocation by `wiggleDistance = 20` is clear (body and a 2-unit band
above), translate horizontally and clamp the upward velocity to at most
-1. Does not touch `isOnGround`. -/
def tryCornerWiggle (check : CollisionCheckFn) (t : ActorTuning)
    (yBefore vyBefore : ℚ) (s : ActorState) : ActorState :=
  if 0 ≤ vyBefore then s
  else
    let offsetX := t.solidBox.offsetX
    let width := t.solidBox.width
    let offsetY := t.solidBox.offsetY
    let height := t.solidBox.height
    let wiggleDistance : ℚ := 20
    let probeSize : ℚ := 2
    let playerTop := yBefore + offsetY
    let playerLeft := s.x + offsetX
    let playerRight := playerLeft + width
    let leftBlocked := check playerLeft (playerTop - 1) probeSize probeSize
    let rightBlocked := check (playerRight - probeSize) (playerTop - 1) probeSize probeSize
    let canWiggle : ℚ → Bool := fun dir =>
      let dx := dir * wiggleDistance
      let testX := s.x + dx
      let testBoxX := testX + offsetX
      let testBoxY := playerTop
      let bodyClear := !(check testBoxX testBoxY width height)
      let aboveClear := !(check testBoxX (testBoxY - 2) width 2)
      bodyClear && aboveClear
    if leftBlocked && !rightBlocked && canWiggle 1 then
      { s with x := s.x + wiggleDistance, velY := min vyBefore (-1) }
    else if rightBlocked && !leftBlocked && canWiggle (-1) then
      { s with x := s.x - wiggleDistance, velY := min vyBefore (-1) }
    else s

/-- Actor.moveY: reset `isOnGround`, sweep vertically by `vel.y * dt`;
on a hit while descending set `isOnGround`, on a hit while ascending try
the corner wiggle. -/
def moveY (check : CollisionCheckFn) (t : ActorTuning) (dt : ℚ) (s : ActorState) : ActorState :=
  let moveAmount := s.velY * dt
  let sgn := mathSign moveAmount
  let s0 : ActorState := { s with isOnGround := false }
  let yBefore := s0.y
  let vyBefore := s0.velY
  let r := actorMove check t .y s0 moveAmount
  if r.2 = true ∧ 0 < sgn then { r.1 with isOnGround := true }
  else if r.2 = true ∧ sgn < 0 then tryCornerWiggle check t yBefore vyBefore r.1
  else r.1

/-- Actor.applyJump (the version of the embedded Actor.ts applies the
force unconditionally). -/
def applyJump (forceY : ℚ) (s : ActorState) : ActorState :=
  { s with velY := forceY, isOnGround := false }

/-- Actor.dampen: one step of exponential approach of `current` toward
`target`. -/
def dampen (current target factor : ℚ) : ℚ :=
  current + (target - current) * factor

/-- Actor.updateMovementPhysics: one integrator tick on velocities.
Top-speed selection, target velocity, ease-factor selection with the
turn multiplier, landing snap, exponential easing, then gravity with the
ascent multiplier, the short-hop early-release multiplier and the halved
gravity near the jump peak (`|vel.y| < 0.8`). Returns the state and the
`justLanded` flag. The debug-overlay block is rendering-only and not
modelled. -/
def updateMovementPhysics (t : ActorTuning) (jumpHeld : Bool) (dt : ℚ)
    (s : ActorState) : ActorState × Bool :=
  let maxSpeedX := if s.isOnGround then t.maxSpeedX else t.maxSpeedX * t.airSpeedFactor
  let targetVx := (s.inputX : ℚ) * maxSpeedX
  let easeBase := if s.isOnGround then t.easeGround else t.easeAir
  let easeFactor :=
    if s.inputX ≠ 0 ∧ mathSign (s.inputX : ℚ) ≠ mathSign s.velX then
      easeBase * t.easeTurnMultiplier
    else easeBase
  let justLanded := !s.wasOnGround && s.isOnGround
  let newVx :=
    if justLanded = true ∧ |s.velX| > t.maxSpeedX * t.airSpeedFactor ∧
        |s.velX - targetVx| < 1 then
      (s.inputX : ℚ) * t.maxSpeedX
    else dampen s.velX targetVx easeFactor
  let gravityFactor :=
    if s.velY < 0 then
      if !jumpHeld && t.shortHop.enabled then
        t.gravity * (t.gravityUpMultiplier * t.shortHop.earlyReleaseGravityMultiplier)
      else
        let g1 := t.gravity * t.gravityUpMultiplier
        if |s.velY| < 4/5 then g1 * (1/2) else g1
    else t.gravity
  let s1 : ActorState :=
    { s with
      velX := newVx
      velY := s.velY + gravityFactor * dt
      wasOnGround := s.isOnGround }
  (s1, justLanded)

/-- Solid of Solid.ts: immutable rectangle (top-left corner, size) with a
hazard flag; `getBoundsRect` returns exactly these fields. -/
structure Solid where
  x : ℚ
  y : ℚ
  width : ℚ
  height : ℚ
  isHazard : Bool
deriving DecidableEq

/-- Inline AABB overlap test of TestScreen.collidesAt against one solid. -/
def rectOverlapsSolid (x y w h : ℚ) (solid : Solid) : Bool :=
  decide (x + w > solid.x) && decide (x < solid.x + solid.width) &&
    decide (y + h > solid.y) && decide (y < solid.y + solid.height)

/-- Effectful collision predicate: the boolean answer together with the
number of hazard-callback invocations performed by the query. -/
def CollisionCheckFnC : Type := ℚ → ℚ → ℚ → ℚ → Bool × ℕ

/-- TestScreen.collidesAt: linear scan over the solids; on the first
overlap return blocked, after invoking the player-supplied hazard
callback when that solid is a hazard. The side effect is modelled as the
invocation count in the second component. -/
def collidesAt (solids : List Solid) (x y w h : ℚ) : Bool × ℕ :=
  match solids with
  | [] => (false, 0)
  | solid :: rest =>
    let isColliding := rectOverlapsSolid x y w h solid
    let calls : ℕ := if isColliding && solid.isHazard then 1 else 0
    if isColliding then (true, calls)
    else
      let r := collidesAt rest x y w h
      (r.1, calls + r.2)

/-- Hitbox probe of `_move` against an effectful predicate. -/
def blockedAtC (check : CollisionCheckFnC) (t : ActorTuning) (px py : ℚ) : Bool × ℕ :=
  let b := getSolidBox t px py
  check b.1 b.2.1 b.2.2.1 b.2.2.2

/-- Actor._move run against an effectful collision predicate (as wired in
the game, where the predicate is TestScreen.collidesAt with its hazard
side effect): same loop as `moveGo`, also accumulating the invocation
counts of the probes it issues. -/
def moveGoC (check : CollisionCheckFnC) (t : ActorTuning) (axis : Axis) (sgn : ℚ)
    (s : ActorState) (remaining : ℚ) : ActorState × Bool × ℕ :=
  if h : remaining ≤ 0 then (s, false, 0)
  else
    let step := min 1 remaining
    let next := match axis with
      | .x => s.x + step * sgn
      | .y => s.y + step * sgn
    let probe := match axis with
      | .x => blockedAtC check t next s.y
      | .y => blockedAtC check t s.x next
    if probe.1 then
      (match axis with
        | .x => { s with velX := 0 }
        | .y => { s with velY := 0 }, true, probe.2)
    else
      let r := moveGoC check t axis sgn
        (match axis with
          | .x => { s with x := next }
          | .y => { s with y := next })
        (remaining - step)
      (r.1, r.2.1, probe.2 + r.2.2)
termination_by (⌈remaining⌉₊)
decreasing_by
  push_neg at h
  rcases le_or_lt remaining 1 with h1 | h1
  · have : remaining - min 1 remaining = 0 := by
      rw [min_eq_right h1]; ring
    rw [this]
    simpa using Nat.ceil_pos.mpr h
  · have hm : min 1 remaining = 1 := min_eq_left h1.le
    rw [hm]
    have hpos : 1 < ⌈remaining⌉₊ := Nat.lt_ceil.mpr (by exact_mod_cast h1)
    have hcast : ((⌈remaining⌉₊ - 1 : ℕ) : ℚ) = (⌈remaining⌉₊ : ℚ) - 1 := by
      have h2 : (1 : ℕ) ≤ ⌈remaining⌉₊ := hpos.le
      push_cast [Nat.cast_sub h2]
      ring
    have hle : ⌈remaining - 1⌉₊ ≤ ⌈remaining⌉₊ - 1 := by
      apply Nat.ceil_le.mpr
      rw [hcast]
      have := Nat.le_ceil remaining
      linarith
    exact lt_of_le_of_lt hle (Nat.sub_lt (by omega) (by omega))

/-- Actor._move against an effectful predicate. -/
def actorMoveC (check : CollisionCheckFnC) (t : ActorTuning) (axis : Axis)
    (s : ActorState) (amount : ℚ) : ActorState × Bool × ℕ :=
  moveGoC check t axis (mathSign amount) s |amount|

/-- Actor.moveX against an effectful predicate, with invocation count. -/
def moveXC (check : CollisionCheckFnC) (t : ActorTuning) (dt : ℚ)
    (s : ActorState) : ActorState × ℕ :=
  let r := actorMoveC check t .x s (s.velX * dt)
  (r.1, r.2.2)

/-- Actor.tryCornerWiggle against an effectful predicate, with invocation
count; the short-circuit evaluation of the source's conditions is kept,
so `canWiggle` probes run only when the corresponding corner test
reaches them. -/
def tryCornerWiggleC (check : CollisionCheckFnC) (t : ActorTuning)
    (yBefore vyBefore : ℚ) (s : ActorState) : ActorState × ℕ :=
  if 0 ≤ vyBefore then (s, 0)
  else
    let offsetX := t.solidBox.offsetX
    let width := t.solidBox.width
    let offsetY := t.solidBox.offsetY
    let height := t.solidBox.height
    let wiggleDistance : ℚ := 20
    let probeSize : ℚ := 2
    let playerTop := yBefore + offsetY
    let playerLeft := s.x + offsetX
    let playerRight := playerLeft + width
    let pl := check playerLeft (playerTop - 1) probeSize probeSize
    let pr := check (playerRight - probeSize) (playerTop - 1) probeSize probeSize
    let base := pl.2 + pr.2
    let canWiggleC : ℚ → Bool × ℕ := fun dir =>
      let dx := dir * wiggleDistance
      let testX := s.x + dx
      let testBoxX := testX + offsetX
      let testBoxY := playerTop
      let body := check testBoxX testBoxY width height
      let above := check testBoxX (testBoxY - 2) width 2
      (!body.1 && !above.1, body.2 + above.2)
    if pl.1 && !pr.1 then
      let cw := canWiggleC 1
      if cw.1 then
        ({ s with x := s.x + wiggleDistance, velY := min vyBefore (-1) }, base + cw.2)
      else (s, base + cw.2)
    else if pr.1 && !pl.1 then
      let cw := canWiggleC (-1)
      if cw.1 then
        ({ s with x := s.x - wiggleDistance, velY := min vyBefore (-1) }, base + cw.2)
      else (s, base + cw.2)
    else (s, base)

/-- Actor.moveY against an effectful predicate, with invocation count. -/
def moveYC (check : CollisionCheckFnC) (t : ActorTuning) (dt : ℚ)
    (s : ActorState) : ActorState × ℕ :=
  let moveAmount := s.velY * dt
  let sgn := mathSign moveAmount
  let s0 : ActorState := { s with isOnGround := false }
  let yBefore := s0.y
  let vyBefore := s0.velY
  let r := actorMoveC check t .y s0 moveAmount
  if r.2.1 = true ∧ 0 < sgn then ({ r.1 with isOnGround := true }, r.2.2)
  else if r.2.1 = true ∧ sgn < 0 then
    let w := tryCornerWiggleC check t yBefore vyBefore r.1
    (w.1, r.2.2 + w.2)
  else (r.1, r.2.2)

namespace Player

/-- Player.TUNING.jumpForce. -/
def jumpForce : ℚ := 10

/-- Player.TUNING.moveThreshold. -/
def moveThreshold : ℚ := 4/5

/-- Player.TUNING.jumpBufferMs. -/
def jumpBufferMs : ℚ := 10500

/-- Player.TUNING.coyoteTimeMs. -/
def coyoteTimeMs : ℚ := 5000

/-- Player.TUNING.turnAnticipation.threshold. -/
def turnAnticipationThreshold : ℚ := 2

/-- Player.TUNING.turnAnticipation.delayMs. -/
def turnAnticipationDelayMs : ℚ := 80

/-- Player.jumpState record. In the source `timeSinceGrounded` starts at
Infinity; the claims are about states of a running player, where it is a
finite number of milliseconds, so the field is a rational here. -/
structure JumpState where
  isSquashing : Bool
  playedLandingSquash : Bool
  buffer : ℚ
  timeSinceGrounded : ℚ
  lastFallSpeed : ℚ
deriving DecidableEq

/-- Player animation states. -/
inductive AnimState where
  | idle
  | walk
  | skid
  | jump
  | fall
deriving DecidableEq

/-- Control-and-timing state of the Player on top of its ActorState. -/
structure PlayerState where
  actor : ActorState
  facingDir : Int
  isSkidding : Bool
  jumpHeld : Bool
  jumpState : JumpState
  animState : AnimState
deriving DecidableEq

/-- Player.setAnimationState (returns unchanged when already in
that state). -/
def setAnimationState (st : AnimState) (p : PlayerState) : PlayerState :=
  if p.animState = st then p else { p with animState := st }

/-- Player.startJump, synchronous part: the `isSquashing` re-entry guard
and setting the flag. The squash/stretch scale actions and the deferred
`applyJump(-jumpForce)` impulse run later on the wall-clock action queue
and are not part of this tick's state change. -/
def startJump (js : JumpState) : JumpState :=
  if js.isSquashing then js else { js with isSquashing := true }

/-- Player.tryStartJump: execute the buffered jump when the buffer is
live, the actor is grounded or within the coyote window, and no squash
sequence is in flight; executing consumes the buffer, starts the jump
and sets `timeSinceGrounded` to the coyote window. Returns the updated
jump state and whether the jump executed. -/
def tryStartJump (grounded : Bool) (js : JumpState) : JumpState × Bool :=
  if js.buffer > 0 ∧ (grounded = true ∨ js.timeSinceGrounded < coyoteTimeMs) ∧
      js.isSquashing = false then
    let js1 := startJump { js with buffer := 0 }
    ({ js1 with timeSinceGrounded := coyoteTimeMs }, true)
  else (js, false)

/-- Player.updateJumpTimers: reset `timeSinceGrounded` while grounded,
otherwise accumulate `dt * 1000`; decay a live buffer by `dt * 1000`. -/
def updateJumpTimers (dt : ℚ) (grounded : Bool) (js : JumpState) : JumpState :=
  let js1 :=
    if grounded then { js with timeSinceGrounded := 0 }
    else { js with timeSinceGrounded := js.timeSinceGrounded + dt * 1000 }
  if js1.buffer > 0 then { js1 with buffer := js1.buffer - dt * 1000 } else js1

/-- Player.jump: only charge the buffer. -/
def requestJump (js : JumpState) : JumpState :=
  { js with buffer := jumpBufferMs }

/-- Player.triggerTurnSkid, synchronous part: the re-entry guard, setting
`isSkidding` and entering the Skid animation. The deferred timeout body
is `skidTimerFire`. -/
def triggerTurnSkid (p : PlayerState) : PlayerState :=
  if p.isSkidding then p
  else setAnimationState .skid { p with isSkidding := true }

/-- Player.move: when grounded, asked to reverse against velocity above
the turn-anticipation threshold and not already skidding, trigger the
skid (which does not change `inputX`); otherwise apply the direction via
`setInputX` immediately. Facing is updated for any nonzero direction. -/
def move (dir : Int) (p : PlayerState) : PlayerState :=
  let p1 :=
    if p.actor.isOnGround = true ∧ dir ≠ 0 ∧ mathSign p.actor.velX ≠ (dir : ℚ) ∧
        |p.actor.velX| > turnAnticipationThreshold ∧ p.isSkidding = false then
      triggerTurnSkid p
    else { p with actor := { p.actor with inputX := dir } }
  if dir ≠ 0 then { p1 with facingDir := dir } else p1

/-- Player.moveLeft. -/
def moveLeft (p : PlayerState) : PlayerState := move (-1) p

/-- Player.moveRight. -/
def moveRight (p : PlayerState) : PlayerState := move 1 p

/-- Player.stop. -/
def stop (p : PlayerState) : PlayerState := move 0 p

/-- Deferred body of triggerTurnSkid's timeout, run after the skid delay:
clear `isSkidding`, re-issue the requested direction, show Walk. -/
def skidTimerFire (newDir : Int) (p : PlayerState) : PlayerState :=
  setAnimationState .walk (move newDir { p with isSkidding := false })

end Player

/-! Concrete fixtures used by witnesses and counterexamples. -/

/-- Default collision predicate of an unwired Actor (never blocked). -/
def checkNone : CollisionCheckFn := fun _ _ _ _ => false

/-- Instrumentation wrapper: count one per probe issued, to observe how
many collision queries a sweep makes. -/
def probeCounting (check : CollisionCheckFn) : CollisionCheckFnC :=
  fun x y w h => (check x y w h, 1)

/-- Physics portion of one simulation tick, in the order Player.update
runs it: integrate velocities, sweep X, then sweep Y. -/
def actorTick (check : CollisionCheckFn) (t : ActorTuning) (held : Bool)
    (dt : ℚ) (s : ActorState) : ActorState :=
  moveY check t dt (moveX check t dt (updateMovementPhysics t held dt s).1)

/-- Physics portion of one tick against an effectful predicate, also
returning the total number of hazard-callback invocations of both
sweeps. -/
def actorTickC (check : CollisionCheckFnC) (t : ActorTuning) (held : Bool)
    (dt : ℚ) (s : ActorState) : ActorState × ℕ :=
  let p := updateMovementPhysics t held dt s
  let rx := moveXC check t dt p.1
  let ry := moveYC check t dt rx.1
  (ry.1, rx.2 + ry.2)

/-- Ascending actor near the jump peak with the jump button held. -/
def c2state : ActorState :=
  { x := 0, y := 0, velX := 0, velY := -1/2, isOnGround := false,
    wasOnGround := false, inputX := 0 }

/-- Actor on its landing tick carrying exactly the capped airborne
horizontal speed (maxSpeedX times airSpeedFactor = 2.7). -/
def c4state : ActorState :=
  { x := 0, y := 0, velX := 27/10, velY := 0, isOnGround := true,
    wasOnGround := false, inputX := 1 }

/-- Jump state with a live buffer, grounded-fresh timers and no squash
in flight. -/
def c3js : Player.JumpState :=
  { isSquashing := false, playedLandingSquash := false, buffer := 1,
    timeSinceGrounded := 0, lastFallSpeed := 0 }

/-- Player mid-skid: the skid was triggered while running right at full
speed, the pre-skid input (1) is still applied, the skid delay has not
fired yet. -/
def c6pre : Player.PlayerState where
  actor :=
    { x := 0, y := 0, velX := 3, velY := 0, isOnGround := true,
      wasOnGround := true, inputX := 1 }
  facingDir := 1
  isSkidding := false
  jumpHeld := false
  jumpState := c3js
  animState := .walk

/-- Player mid-skid (isSkidding already true, pre-skid input held). -/
def c6mid : Player.PlayerState :=
  { c6pre with isSkidding := true, animState := .skid }

/-- Single hazard solid overlapping the origin area. -/
def c7hazard : Solid :=
  { x := 1/2, y := 1/2, width := 9/2, height := 9/2, isHazard := true }

/-- World containing only the hazard. -/
def c7solids : List Solid := [c7hazard]

/-- Tuning with a unit hitbox anchored at the origin. -/
def c7tuning : ActorTuning :=
  { TUNING_DEFAULTS with
    solidBox := { offsetX := 0, offsetY := 0, width := 1, height := 1 } }

/-- Actor overlapping the hazard, moving down-right into it. -/
def c7s : ActorState :=
  { x := 0, y := 0, velX := 1, velY := 1, isOnGround := false,
    wasOnGround := false, inputX := 0 }

/-- Grounded actor running right just below full speed, about to walk
off the edge (no solid anywhere in `checkNone`). -/
def c8pre : ActorState :=
  { x := 0, y := 0, velX := 14/5, velY := 0, isOnGround := true,
    wasOnGround := true, inputX := 1 }

/-- One integrator tick of the C9 scenario (grounded, input held right,
dt = 1, default tuning; the sweeps are not involved since the claim is
about the velocity sequence and the actor stays grounded). -/
def c9tick (s : ActorState) : ActorState :=
  (updateMovementPhysics TUNING_DEFAULTS false 1 s).1

/-- C9 start state: at rest on the ground. -/
def c9start : ActorState :=
  { x := 0, y := 0, velX := 0, velY := 0, isOnGround := true,
    wasOnGround := true, inputX := 1 }

/-- Horizontal velocity after n ticks of the C9 scenario. -/
def c9vx (n : ℕ) : ℚ := (c9tick^[n] c9start).velX

end Pucky

namespace Pucky

theorem mathSign_zero : mathSign 0 = 0 := by norm_num [mathSign]

theorem mathSign_of_pos {q : ℚ} (h : 0 < q) : mathSign q = 1 := by
  simp [mathSign, h]

theorem mathSign_of_neg {q : ℚ} (h : q < 0) : mathSign q = -1 := by
  simp [mathSign, h, not_lt.mpr h.le]

theorem mathSign_eq_zero_iff {q : ℚ} : mathSign q = 0 ↔ q = 0 := by
  rcases lt_trichotomy q 0 with h | h | h
  · simp [mathSign_of_neg h, h.ne]
  · simp [h, mathSign_zero]
  · simp [mathSign_of_pos h, h.ne.symm]

theorem abs_mul_mathSign (q : ℚ) : |q| * mathSign q = q := by
  rcases lt_trichotomy q 0 with h | h | h
  · rw [mathSign_of_neg h, abs_of_neg h]; ring
  · simp [h, mathSign_zero]
  · rw [mathSign_of_pos h, abs_of_pos h]; ring

/-- C2 counterexample: with the jump button held and `vy = -0.5` (inside
the near-peak band `|vy| < 0.8`), one tick at default tuning adds only
the halved ascent gravity (0.15), giving `vy = -0.35`, not the
`gravity * gravityUpMultiplier * dt = 0.3` step the claim prescribes. -/
theorem C2_counterexample :
    (updateMovementPhysics TUNING_DEFAULTS true 1 c2state).1.velY = -7/20 ∧
    ¬ (updateMovementPhysics TUNING_DEFAULTS true 1 c2state).1.velY =
        c2state.velY + TUNING_DEFAULTS.gravity * TUNING_DEFAULTS.gravityUpMultiplier * 1 := by
  norm_num [updateMovementPhysics, c2state, TUNING_DEFAULTS, dampen, mathSign,
    abs_eq_max_neg, max_def]

/-- C2 amended: gravity selection per tick. Ascending with short hop
enabled and the button released: gravity times gravityUpMultiplier times
earlyReleaseGravityMultiplier. Ascending otherwise: gravity times
gravityUpMultiplier, halved additionally in the near-peak band
`|vy| < 0.8`. Not ascending: full gravity. The selected factor times dt
is added to `vy`. -/
theorem C2_gravity_selection (t : ActorTuning) (held : Bool) (dt : ℚ) (s : ActorState) :
    (s.velY < 0 → held = false → t.shortHop.enabled = true →
      (updateMovementPhysics t held dt s).1.velY =
        s.velY + t.gravity * (t.gravityUpMultiplier * t.shortHop.earlyReleaseGravityMultiplier) * dt) ∧
    (s.velY < 0 → ¬(held = false ∧ t.shortHop.enabled = true) → |s.velY| < 4/5 →
      (updateMovementPhysics t held dt s).1.velY =
        s.velY + t.gravity * t.gravityUpMultiplier * (1/2) * dt) ∧
    (s.velY < 0 → ¬(held = false ∧ t.shortHop.enabled = true) → ¬(|s.velY| < 4/5) →
      (updateMovementPhysics t held dt s).1.velY =
        s.velY + t.gravity * t.gravityUpMultiplier * dt) ∧
    (0 ≤ s.velY →
      (updateMovementPhysics t held dt s).1.velY = s.velY + t.gravity * dt) := by
  refine ⟨?_, ?_, ?_, ?_⟩
  · intro hvy hh he
    subst hh
    simp [updateMovementPhysics, hvy, he]
  · intro hvy hcase hpeak
    have hb : (!held && t.shortHop.enabled) = false := by
      rcases held with _ | _ <;> rcases ht : t.shortHop.enabled with _ | _ <;> simp_all
    simp [updateMovementPhysics, hvy, hb, hpeak]
  · intro hvy hcase hpeak
    have hb : (!held && t.shortHop.enabled) = false := by
      rcases held with _ | _ <;> rcases ht : t.shortHop.enabled with _ | _ <;> simp_all
    simp [updateMovementPhysics, hvy, hb, hpeak]
  · intro hvy
    simp [updateMovementPhysics, not_lt.mpr hvy]

/-- C2 witness: at the counterexample state with the button released,
the early-release branch applies: one tick adds 0.6, giving vy = 0.1. -/
theorem C2_gravity_selection_witness :
    (updateMovementPhysics TUNING_DEFAULTS false 1 c2state).1.velY =
      c2state.velY + TUNING_DEFAULTS.gravity * (TUNING_DEFAULTS.gravityUpMultiplier *
        TUNING_DEFAULTS.shortHop.earlyReleaseGravityMultiplier) * 1 := by
  exact (C2_gravity_selection TUNING_DEFAULTS false 1 c2state).1
    (by norm_num [c2state]) rfl rfl

end Pucky

namespace Pucky

/-- C4 counterexample: an actor landing (wasGrounded false, grounded
true) with `inputAxis = 1` carrying exactly the capped airborne speed
`|vx| = maxSpeedX * airSpeedFactor = 2.7` does NOT get snapped: the
strict `>` in the snap test fails, the easing step applies and the
landing tick ends with vx = 2.7405, not maxSpeedX = 3. -/
theorem C4_counterexample :
    c4state.wasOnGround = false ∧ c4state.isOnGround = true ∧ c4state.inputX = 1 ∧
    |c4state.velX| = TUNING_DEFAULTS.maxSpeedX * TUNING_DEFAULTS.airSpeedFactor ∧
    (updateMovementPhysics TUNING_DEFAULTS false 1 c4state).1.velX = 5481/2000 ∧
    ¬ (updateMovementPhysics TUNING_DEFAULTS false 1 c4state).1.velX =
        (c4state.inputX : ℚ) * TUNING_DEFAULTS.maxSpeedX := by
  norm_num [c4state, TUNING_DEFAULTS, updateMovementPhysics, dampen, mathSign,
    abs_eq_max_neg, max_def]

/-- C4 amended: on a grounded-transition tick where `|vx|` STRICTLY
exceeds maxSpeedX * airSpeedFactor and `|vx - targetVx| < 1` (with
targetVx = inputAxis * maxSpeedX since the actor is grounded), the tick
sets vx exactly to inputAxis * maxSpeedX instead of easing; an actor
landing at exactly the capped airborne speed is eased instead. -/
theorem C4_landing_snap (t : ActorTuning) (held : Bool) (dt : ℚ) (s : ActorState)
    (hw : s.wasOnGround = false) (hg : s.isOnGround = true)
    (hfast : |s.velX| > t.maxSpeedX * t.airSpeedFactor)
    (hclose : |s.velX - (s.inputX : ℚ) * t.maxSpeedX| < 1) :
    (updateMovementPhysics t held dt s).1.velX = (s.inputX : ℚ) * t.maxSpeedX := by
  simp [updateMovementPhysics, hw, hg, hfast, hclose]

/-- C4 witness: landing at vx = 2.8 (strictly above the 2.7 cap, within
1 of targetVx = 3) snaps to exactly 3. -/
theorem C4_landing_snap_witness :
    (updateMovementPhysics TUNING_DEFAULTS false 1 { c4state with velX := 14/5 }).1.velX =
      (({ c4state with velX := 14/5 } : ActorState).inputX : ℚ) * TUNING_DEFAULTS.maxSpeedX := by
  exact C4_landing_snap TUNING_DEFAULTS false 1 { c4state with velX := 14/5 }
    (by norm_num [c4state]) (by norm_num [c4state])
    (by norm_num [c4state, TUNING_DEFAULTS, abs_eq_max_neg, max_def])
    (by norm_num [c4state, TUNING_DEFAULTS, abs_eq_max_neg, max_def])

/-- C10: whenever `inputAxis` is nonzero and `vx = 0` (accelerating from
rest), `Math.sign(vx) = 0` differs from `Math.sign(inputAxis)`, so the
turn-anticipation multiplier is applied: the tick eases with factor
(easeGround or easeAir) * easeTurnMultiplier, not the plain factor
(stated under the always-true side condition that
maxSpeedX * airSpeedFactor is nonnegative, which rules the landing snap
out at vx = 0). -/
theorem C10_turn_multiplier_from_standstill (t : ActorTuning) (held : Bool) (dt : ℚ)
    (s : ActorState) (hin : s.inputX ≠ 0) (hvx : s.velX = 0)
    (hcap : 0 ≤ t.maxSpeedX * t.airSpeedFactor) :
    (updateMovementPhysics t held dt s).1.velX =
      dampen s.velX
        ((s.inputX : ℚ) * (if s.isOnGround = true then t.maxSpeedX
          else t.maxSpeedX * t.airSpeedFactor))
        ((if s.isOnGround = true then t.easeGround else t.easeAir) *
          t.easeTurnMultiplier) := by
  have hsz : mathSign ((s.inputX : ℚ)) ≠ mathSign s.velX := by
    rw [hvx, mathSign_zero]
    intro hc
    exact hin (by exact_mod_cast mathSign_eq_zero_iff.mp hc)
  have hsnap : ¬(|s.velX| > t.maxSpeedX * t.airSpeedFactor) := by
    rw [hvx]
    simpa using hcap
  simp [updateMovementPhysics, hin, hsz, hsnap]

/-- C10 witness: from rest on the ground with input 1 at default tuning,
the effective ease factor is easeGround * easeTurnMultiplier. -/
theorem C10_turn_multiplier_witness :
    (updateMovementPhysics TUNING_DEFAULTS false 1 c9start).1.velX =
      dampen c9start.velX
        ((c9start.inputX : ℚ) * (if c9start.isOnGround = true then TUNING_DEFAULTS.maxSpeedX
          else TUNING_DEFAULTS.maxSpeedX * TUNING_DEFAULTS.airSpeedFactor))
        ((if c9start.isOnGround = true then TUNING_DEFAULTS.easeGround
          else TUNING_DEFAULTS.easeAir) * TUNING_DEFAULTS.easeTurnMultiplier) := by
  exact C10_turn_multiplier_from_standstill TUNING_DEFAULTS false 1 c9start
    (by norm_num [c9start]) (by norm_num [c9start]) (by norm_num [TUNING_DEFAULTS])

end Pucky

namespace Pucky

/-- C3: on a Player tick, the buffered jump executes exactly when the
buffer is positive AND (grounded OR timeSinceGrounded below the coyote
window) AND no squash sequence is in flight; executing zeroes the buffer
and sets timeSinceGrounded to the coyote window, and any later airborne
attempt with timeSinceGrounded at or above the window cannot execute. -/
theorem C3_buffered_jump (grounded : Bool) (js : Player.JumpState) :
    ((Player.tryStartJump grounded js).2 = true ↔
      (js.buffer > 0 ∧ (grounded = true ∨ js.timeSinceGrounded < Player.coyoteTimeMs) ∧
        js.isSquashing = false)) ∧
    ((Player.tryStartJump grounded js).2 = true →
      (Player.tryStartJump grounded js).1.buffer = 0 ∧
      (Player.tryStartJump grounded js).1.timeSinceGrounded = Player.coyoteTimeMs) ∧
    (∀ js2 : Player.JumpState, Player.coyoteTimeMs ≤ js2.timeSinceGrounded →
      (Player.tryStartJump false js2).2 = false) := by
  refine ⟨?_, ?_, ?_⟩
  · by_cases hc : js.buffer > 0 ∧ (grounded = true ∨ js.timeSinceGrounded < Player.coyoteTimeMs) ∧
        js.isSquashing = false
    · simp [Player.tryStartJump, hc]
    · simp [Player.tryStartJump, hc]
  · intro hexec
    by_cases hc : js.buffer > 0 ∧ (grounded = true ∨ js.timeSinceGrounded < Player.coyoteTimeMs) ∧
        js.isSquashing = false
    · simp [Player.tryStartJump, Player.startJump, hc, hc.2.2]
    · exfalso
      simp [Player.tryStartJump, hc] at hexec
  · intro js2 h2
    have hnc : ¬(0 < js2.buffer ∧ js2.timeSinceGrounded < Player.coyoteTimeMs ∧
        js2.isSquashing = false) := by
      rintro ⟨-, hlt, -⟩
      linarith
    simp [Player.tryStartJump, hnc]

/-- C3 witness: a grounded player with a live 1 ms buffer and fresh
timers executes the jump, ends with buffer 0 and timeSinceGrounded at
the coyote window, and a second airborne attempt does not execute. -/
theorem C3_buffered_jump_witness :
    (Player.tryStartJump true c3js).2 = true ∧
    (Player.tryStartJump true c3js).1.buffer = 0 ∧
    (Player.tryStartJump true c3js).1.timeSinceGrounded = Player.coyoteTimeMs ∧
    (Player.tryStartJump false (Player.tryStartJump true c3js).1).2 = false := by
  have h := C3_buffered_jump true c3js
  have hexec : (Player.tryStartJump true c3js).2 = true := by
    refine h.1.mpr ?_
    refine ⟨by norm_num [c3js], Or.inl rfl, by norm_num [c3js]⟩
  refine ⟨hexec, (h.2.1 hexec).1, (h.2.1 hexec).2, ?_⟩
  refine h.2.2 _ ?_
  rw [(h.2.1 hexec).2]

end Pucky

namespace Pucky

theorem moveGo_stop (check : CollisionCheckFn) (t : ActorTuning) (axis : Axis) (sgn : ℚ)
    (s : ActorState) (remaining : ℚ) (hle : remaining ≤ 0) :
    moveGo check t axis sgn s remaining = (s, false) := by
  rw [moveGo.eq_def]
  simp [hle]

theorem moveGoX_hit (check : CollisionCheckFn) (t : ActorTuning) (sgn : ℚ)
    (s : ActorState) (remaining : ℚ) (h1 : ¬remaining ≤ 0)
    (h2 : blockedAt check t (s.x + min 1 remaining * sgn) s.y = true) :
    moveGo check t .x sgn s remaining = ({ s with velX := 0 }, true) := by
  rw [moveGo.eq_def]
  simp [h1, h2]

theorem moveGoX_cont (check : CollisionCheckFn) (t : ActorTuning) (sgn : ℚ)
    (s : ActorState) (remaining : ℚ) (h1 : ¬remaining ≤ 0)
    (h2 : blockedAt check t (s.x + min 1 remaining * sgn) s.y = false) :
    moveGo check t .x sgn s remaining =
      moveGo check t .x sgn { s with x := s.x + min 1 remaining * sgn }
        (remaining - min 1 remaining) := by
  conv_lhs => rw [moveGo.eq_def]
  simp [h1, h2]

theorem moveGoY_hit (check : CollisionCheckFn) (t : ActorTuning) (sgn : ℚ)
    (s : ActorState) (remaining : ℚ) (h1 : ¬remaining ≤ 0)
    (h2 : blockedAt check t s.x (s.y + min 1 remaining * sgn) = true) :
    moveGo check t .y sgn s remaining = ({ s with velY := 0 }, true) := by
  rw [moveGo.eq_def]
  simp [h1, h2]

theorem moveGoY_cont (check : CollisionCheckFn) (t : ActorTuning) (sgn : ℚ)
    (s : ActorState) (remaining : ℚ) (h1 : ¬remaining ≤ 0)
    (h2 : blockedAt check t s.x (s.y + min 1 remaining * sgn) = false) :
    moveGo check t .y sgn s remaining =
      moveGo check t .y sgn { s with y := s.y + min 1 remaining * sgn }
        (remaining - min 1 remaining) := by
  conv_lhs => rw [moveGo.eq_def]
  simp [h1, h2]

end Pucky

namespace Pucky

theorem moveGoX_spec (check : CollisionCheckFn) (t : ActorTuning) (sgn : ℚ)
    (s : ActorState) (remaining : ℚ) :
    (moveGo check t .x sgn s remaining).1.y = s.y ∧
    (moveGo check t .x sgn s remaining).1.velY = s.velY ∧
    (moveGo check t .x sgn s remaining).1.isOnGround = s.isOnGround ∧
    (moveGo check t .x sgn s remaining).1.wasOnGround = s.wasOnGround ∧
    (moveGo check t .x sgn s remaining).1.inputX = s.inputX ∧
    ((moveGo check t .x sgn s remaining).2 = true →
      (moveGo check t .x sgn s remaining).1.velX = 0) ∧
    ((moveGo check t .x sgn s remaining).2 = false →
      (moveGo check t .x sgn s remaining).1.velX = s.velX ∧
      (0 ≤ remaining → (moveGo check t .x sgn s remaining).1.x = s.x + remaining * sgn)) := by
  induction s, remaining using moveGo.induct check t .x sgn with
  | case1 s remaining hle =>
    rw [moveGo_stop check t .x sgn s remaining hle]
    refine ⟨rfl, rfl, rfl, rfl, rfl, by simp, fun _ => ⟨rfl, fun hnn => ?_⟩⟩
    have h0 : remaining = 0 := le_antisymm hle hnn
    simp [h0]
  | case2 s remaining hle step next blocked hblocked =>
    rw [moveGoX_hit check t sgn s remaining hle hblocked]
    simp
  | case3 s remaining hle step next blocked hblocked ih =>
    have hb : blockedAt check t (s.x + min 1 remaining * sgn) s.y = false := by
      simpa using hblocked
    rw [moveGoX_cont check t sgn s remaining hle hb]
    obtain ⟨ih1, ih2, ih3, ih4, ih5, ih6, ih7⟩ := ih
    refine ⟨ih1, ih2, ih3, ih4, ih5, ih6, fun hmiss => ⟨(ih7 hmiss).1, fun hnn => ?_⟩⟩
    have hrem : (0:ℚ) ≤ remaining - step := by
      have hms : step ≤ remaining := min_le_right _ _
      push_neg at hle
      linarith
    refine ((ih7 hmiss).2 hrem).trans ?_
    show next + (remaining - step) * sgn = s.x + remaining * sgn
    show s.x + step * sgn + (remaining - step) * sgn = s.x + remaining * sgn
    ring

end Pucky

namespace Pucky

theorem moveGoY_spec (check : CollisionCheckFn) (t : ActorTuning) (sgn : ℚ)
    (s : ActorState) (remaining : ℚ) :
    (moveGo check t .y sgn s remaining).1.x = s.x ∧
    (moveGo check t .y sgn s remaining).1.velX = s.velX ∧
    (moveGo check t .y sgn s remaining).1.isOnGround = s.isOnGround ∧
    (moveGo check t .y sgn s remaining).1.wasOnGround = s.wasOnGround ∧
    (moveGo check t .y sgn s remaining).1.inputX = s.inputX ∧
    ((moveGo check t .y sgn s remaining).2 = true →
      (moveGo check t .y sgn s remaining).1.velY = 0) ∧
    ((moveGo check t .y sgn s remaining).2 = false →
      (moveGo check t .y sgn s remaining).1.velY = s.velY ∧
      (0 ≤ remaining → (moveGo check t .y sgn s remaining).1.y = s.y + remaining * sgn)) := by
  induction s, remaining using moveGo.induct check t .y sgn with
  | case1 s remaining hle =>
    rw [moveGo_stop check t .y sgn s remaining hle]
    refine ⟨rfl, rfl, rfl, rfl, rfl, by simp, fun _ => ⟨rfl, fun hnn => ?_⟩⟩
    have h0 : remaining = 0 := le_antisymm hle hnn
    simp [h0]
  | case2 s remaining hle step next blocked hblocked =>
    rw [moveGoY_hit check t sgn s remaining hle hblocked]
    simp
  | case3 s remaining hle step next blocked hblocked ih =>
    have hb : blockedAt check t s.x (s.y + min 1 remaining * sgn) = false := by
      simpa using hblocked
    rw [moveGoY_cont check t sgn s remaining hle hb]
    obtain ⟨ih1, ih2, ih3, ih4, ih5, ih6, ih7⟩ := ih
    refine ⟨ih1, ih2, ih3, ih4, ih5, ih6, fun hmiss => ⟨(ih7 hmiss).1, fun hnn => ?_⟩⟩
    have hrem : (0:ℚ) ≤ remaining - step := by
      have hms : step ≤ remaining := min_le_right _ _
      push_neg at hle
      linarith
    refine ((ih7 hmiss).2 hrem).trans ?_
    show next + (remaining - step) * sgn = s.y + remaining * sgn
    show s.y + step * sgn + (remaining - step) * sgn = s.y + remaining * sgn
    ring

theorem moveGoX_clear (check : CollisionCheckFn) (t : ActorTuning) (sgn : ℚ)
    (s : ActorState) (remaining : ℚ) :
    blockedAt check t s.x s.y = false →
    blockedAt check t (moveGo check t .x sgn s remaining).1.x
      (moveGo check t .x sgn s remaining).1.y = false := by
  induction s, remaining using moveGo.induct check t .x sgn with
  | case1 s remaining hle =>
    intro h
    rw [moveGo_stop check t .x sgn s remaining hle]
    exact h
  | case2 s remaining hle step next blocked hblocked =>
    intro h
    rw [moveGoX_hit check t sgn s remaining hle hblocked]
    exact h
  | case3 s remaining hle step next blocked hblocked ih =>
    intro h
    have hb : blockedAt check t (s.x + min 1 remaining * sgn) s.y = false := by
      simpa using hblocked
    rw [moveGoX_cont check t sgn s remaining hle hb]
    exact ih hb

theorem moveGoY_clear (check : CollisionCheckFn) (t : ActorTuning) (sgn : ℚ)
    (s : ActorState) (remaining : ℚ) :
    blockedAt check t s.x s.y = false →
    blockedAt check t (moveGo check t .y sgn s remaining).1.x
      (moveGo check t .y sgn s remaining).1.y = false := by
  induction s, remaining using moveGo.induct check t .y sgn with
  | case1 s remaining hle =>
    intro h
    rw [moveGo_stop check t .y sgn s remaining hle]
    exact h
  | case2 s remaining hle step next blocked hblocked =>
    intro h
    rw [moveGoY_hit check t sgn s remaining hle hblocked]
    exact h
  | case3 s remaining hle step next blocked hblocked ih =>
    intro h
    have hb : blockedAt check t s.x (s.y + min 1 remaining * sgn) = false := by
      simpa using hblocked
    rw [moveGoY_cont check t sgn s remaining hle hb]
    exact ih hb

end Pucky

namespace Pucky

theorem moveGo_checkNone (t : ActorTuning) (axis : Axis) (sgn : ℚ)
    (s : ActorState) (remaining : ℚ) :
    (moveGo checkNone t axis sgn s remaining).2 = false := by
  induction s, remaining using moveGo.induct checkNone t axis sgn with
  | case1 s remaining hle =>
    rw [moveGo_stop checkNone t axis sgn s remaining hle]
  | case2 s remaining hle step next blocked hblocked =>
    exfalso
    cases axis <;> exact Bool.false_ne_true hblocked
  | case3 s remaining hle step next blocked hblocked ih =>
    cases axis
    case x =>
      have hb : blockedAt checkNone t (s.x + min 1 remaining * sgn) s.y = false := rfl
      rw [moveGoX_cont checkNone t sgn s remaining hle hb]
      exact ih
    case y =>
      have hb : blockedAt checkNone t s.x (s.y + min 1 remaining * sgn) = false := rfl
      rw [moveGoY_cont checkNone t sgn s remaining hle hb]
      exact ih

/-- C1: the sweep `_move(axis, amount)` is safe: (a) if the solid hitbox
at the starting position is not blocked by the collision predicate, the
hitbox at the final committed position is not blocked either (every
sub-step, of size at most 1, probes the candidate hitbox before
committing, and a blocked candidate is never committed); (b) when no
sub-step is blocked the position advances by exactly `amount`; (c) when
a hit is reported, the velocity component of the swept axis is zeroed. -/
theorem C1_sweep_safety (check : CollisionCheckFn) (t : ActorTuning) (axis : Axis)
    (s : ActorState) (amount : ℚ) :
    (blockedAt check t s.x s.y = false →
      blockedAt check t (actorMove check t axis s amount).1.x
        (actorMove check t axis s amount).1.y = false) ∧
    ((actorMove check t axis s amount).2 = false →
      (actorMove check t axis s amount).1.pos axis = s.pos axis + amount) ∧
    ((actorMove check t axis s amount).2 = true →
      (actorMove check t axis s amount).1.vel axis = 0) := by
  cases axis
  case x =>
    refine ⟨moveGoX_clear check t (mathSign amount) s |amount|, ?_, ?_⟩
    · intro hmiss
      have h := ((moveGoX_spec check t (mathSign amount) s |amount|).2.2.2.2.2.2 hmiss).2
        (abs_nonneg amount)
      simpa [actorMove, ActorState.pos, abs_mul_mathSign] using h
    · intro hhit
      have h := (moveGoX_spec check t (mathSign amount) s |amount|).2.2.2.2.2.1 hhit
      simpa [actorMove, ActorState.vel] using h
  case y =>
    refine ⟨moveGoY_clear check t (mathSign amount) s |amount|, ?_, ?_⟩
    · intro hmiss
      have h := ((moveGoY_spec check t (mathSign amount) s |amount|).2.2.2.2.2.2 hmiss).2
        (abs_nonneg amount)
      simpa [actorMove, ActorState.pos, abs_mul_mathSign] using h
    · intro hhit
      have h := (moveGoY_spec check t (mathSign amount) s |amount|).2.2.2.2.2.1 hhit
      simpa [actorMove, ActorState.vel] using h

/-- C1 witness: sweeping the never-blocked predicate by 2 units from the
fixture state commits a clear final hitbox and advances x by exactly 2. -/
theorem C1_sweep_safety_witness :
    blockedAt checkNone c7tuning (actorMove checkNone c7tuning .x c7s 2).1.x
      (actorMove checkNone c7tuning .x c7s 2).1.y = false ∧
    (actorMove checkNone c7tuning .x c7s 2).1.pos .x = c7s.pos .x + 2 := by
  have h := C1_sweep_safety checkNone c7tuning .x c7s 2
  refine ⟨h.1 rfl, h.2.1 ?_⟩
  exact moveGo_checkNone c7tuning .x (mathSign 2) c7s |2|

end Pucky

namespace Pucky

theorem tryCornerWiggle_isOnGround (check : CollisionCheckFn) (t : ActorTuning)
    (yBefore vyBefore : ℚ) (s : ActorState) :
    (tryCornerWiggle check t yBefore vyBefore s).isOnGround = s.isOnGround := by
  unfold tryCornerWiggle
  dsimp only
  split_ifs <;> rfl

theorem tryCornerWiggle_velX (check : CollisionCheckFn) (t : ActorTuning)
    (yBefore vyBefore : ℚ) (s : ActorState) :
    (tryCornerWiggle check t yBefore vyBefore s).velX = s.velX := by
  unfold tryCornerWiggle
  dsimp only
  split_ifs <;> rfl

theorem moveGoC_stop (check : CollisionCheckFnC) (t : ActorTuning) (axis : Axis) (sgn : ℚ)
    (s : ActorState) (remaining : ℚ) (hle : remaining ≤ 0) :
    moveGoC check t axis sgn s remaining = (s, false, 0) := by
  rw [moveGoC.eq_def]
  simp [hle]

theorem moveGoCX_hit (check : CollisionCheckFnC) (t : ActorTuning) (sgn : ℚ)
    (s : ActorState) (remaining : ℚ) (h1 : ¬remaining ≤ 0)
    (h2 : (blockedAtC check t (s.x + min 1 remaining * sgn) s.y).1 = true) :
    moveGoC check t .x sgn s remaining =
      ({ s with velX := 0 }, true,
        (blockedAtC check t (s.x + min 1 remaining * sgn) s.y).2) := by
  rw [moveGoC.eq_def]
  simp [h1, h2]

theorem moveGoCX_cont (check : CollisionCheckFnC) (t : ActorTuning) (sgn : ℚ)
    (s : ActorState) (remaining : ℚ) (h1 : ¬remaining ≤ 0)
    (h2 : (blockedAtC check t (s.x + min 1 remaining * sgn) s.y).1 = false) :
    moveGoC check t .x sgn s remaining =
      ((moveGoC check t .x sgn { s with x := s.x + min 1 remaining * sgn }
          (remaining - min 1 remaining)).1,
        (moveGoC check t .x sgn { s with x := s.x + min 1 remaining * sgn }
          (remaining - min 1 remaining)).2.1,
        (blockedAtC check t (s.x + min 1 remaining * sgn) s.y).2 +
          (moveGoC check t .x sgn { s with x := s.x + min 1 remaining * sgn }
            (remaining - min 1 remaining)).2.2) := by
  conv_lhs => rw [moveGoC.eq_def]
  simp [h1, h2]

theorem moveGoCY_hit (check : CollisionCheckFnC) (t : ActorTuning) (sgn : ℚ)
    (s : ActorState) (remaining : ℚ) (h1 : ¬remaining ≤ 0)
    (h2 : (blockedAtC check t s.x (s.y + min 1 remaining * sgn)).1 = true) :
    moveGoC check t .y sgn s remaining =
      ({ s with velY := 0 }, true,
        (blockedAtC check t s.x (s.y + min 1 remaining * sgn)).2) := by
  rw [moveGoC.eq_def]
  simp [h1, h2]

theorem moveGoCY_cont (check : CollisionCheckFnC) (t : ActorTuning) (sgn : ℚ)
    (s : ActorState) (remaining : ℚ) (h1 : ¬remaining ≤ 0)
    (h2 : (blockedAtC check t s.x (s.y + min 1 remaining * sgn)).1 = false) :
    moveGoC check t .y sgn s remaining =
      ((moveGoC check t .y sgn { s with y := s.y + min 1 remaining * sgn }
          (remaining - min 1 remaining)).1,
        (moveGoC check t .y sgn { s with y := s.y + min 1 remaining * sgn }
          (remaining - min 1 remaining)).2.1,
        (blockedAtC check t s.x (s.y + min 1 remaining * sgn)).2 +
          (moveGoC check t .y sgn { s with y := s.y + min 1 remaining * sgn }
            (remaining - min 1 remaining)).2.2) := by
  conv_lhs => rw [moveGoC.eq_def]
  simp [h1, h2]

theorem moveGoC_count_le_one (check : CollisionCheckFnC)
    (hcheck : ∀ x y w h, ((check x y w h).1 = false → (check x y w h).2 = 0) ∧
      (check x y w h).2 ≤ 1)
    (t : ActorTuning) (axis : Axis) (sgn : ℚ) (s : ActorState) (remaining : ℚ) :
    (moveGoC check t axis sgn s remaining).2.2 ≤ 1 := by
  induction s, remaining using moveGoC.induct check t axis sgn with
  | case1 s remaining hle =>
    rw [moveGoC_stop check t axis sgn s remaining hle]
    simp
  | case2 s remaining hle step next probe hblocked =>
    cases axis
    case x =>
      rw [moveGoCX_hit check t sgn s remaining hle hblocked]
      exact (hcheck _ _ _ _).2
    case y =>
      rw [moveGoCY_hit check t sgn s remaining hle hblocked]
      exact (hcheck _ _ _ _).2
  | case3 s remaining hle step next probe hblocked ih =>
    have hmiss : probe.1 = false := by
      simpa using hblocked
    cases axis
    case x =>
      rw [moveGoCX_cont check t sgn s remaining hle hmiss]
      have h0 : (blockedAtC check t (s.x + min 1 remaining * sgn) s.y).2 = 0 :=
        (hcheck _ _ _ _).1 hmiss
      simpa [h0] using ih
    case y =>
      rw [moveGoCY_cont check t sgn s remaining hle hmiss]
      have h0 : (blockedAtC check t s.x (s.y + min 1 remaining * sgn)).2 = 0 :=
        (hcheck _ _ _ _).1 hmiss
      simpa [h0] using ih

end Pucky

namespace Pucky

/-- C5: moveY resets grounded and re-derives it from the sweep: after
the vertical sweep, grounded holds exactly when the sweep hit while the
move amount's sign was positive (downward); an upward hit (corner
wiggle) never sets grounded; and a zero-length vertical move makes no
collision probe at all (probe count 0) and leaves grounded false. -/
theorem C5_grounded_iff (check : CollisionCheckFn) (t : ActorTuning) (dt : ℚ)
    (s : ActorState) :
    ((moveY check t dt s).isOnGround = true ↔
      ((actorMove check t .y { s with isOnGround := false } (s.velY * dt)).2 = true ∧
        0 < mathSign (s.velY * dt))) ∧
    (s.velY * dt = 0 →
      moveY check t dt s = { s with isOnGround := false } ∧
      (moveYC (probeCounting check) t dt s).2 = 0) := by
  constructor
  · have hg : (actorMove check t .y { s with isOnGround := false } (s.velY * dt)).1.isOnGround
        = false := by
      have h := (moveGoY_spec check t (mathSign (s.velY * dt))
        { s with isOnGround := false } |s.velY * dt|).2.2.1
      simpa [actorMove] using h
    by_cases hr : (actorMove check t .y { s with isOnGround := false } (s.velY * dt)).2 = true
    · by_cases hpos : 0 < mathSign (s.velY * dt)
      · simp [moveY, hr, hpos]
      · by_cases hneg : mathSign (s.velY * dt) < 0
        · simp [moveY, hr, hpos, hneg, tryCornerWiggle_isOnGround, hg]
        · simp [moveY, hr, hpos, hneg, hg]
    · simp [moveY, hr, hg]
  · intro h0
    constructor
    · simp [moveY, h0, mathSign_zero, actorMove, abs_zero, moveGo_stop]
    · simp [moveYC, h0, mathSign_zero, actorMoveC, abs_zero, moveGoC_stop]

/-- C5 witness: an idle grounded actor (velY = 0) ends its vertical
sweep not grounded, with zero collision probes issued. -/
theorem C5_grounded_iff_witness :
    moveY checkNone TUNING_DEFAULTS 1 c9start = { c9start with isOnGround := false } ∧
    (moveYC (probeCounting checkNone) TUNING_DEFAULTS 1 c9start).2 = 0 := by
  exact (C5_grounded_iff checkNone TUNING_DEFAULTS 1 c9start).2 (by norm_num [c9start])

end Pucky

namespace Pucky

theorem collidesAt_spec (solids : List Solid) (x y w h : ℚ) :
    (collidesAt solids x y w h).2 ≤ 1 ∧
    ((collidesAt solids x y w h).1 = false → (collidesAt solids x y w h).2 = 0) := by
  induction solids with
  | nil => simp [collidesAt]
  | cons solid rest ih =>
    by_cases hc : rectOverlapsSolid x y w h solid = true
    · constructor
      · simp only [collidesAt, hc]
        split_ifs <;> simp
      · intro hb
        exfalso
        simp [collidesAt, hc] at hb
    · simpa [collidesAt, hc] using ih

/-- C7 amended: a hazard-callback invocation happens only inside a query
that returns blocked (so it precedes the blocked result), each collision
query invokes the callback at most once, and one axis sweep `_move`
invokes it at most once in total (the sweep stops at its first blocked
sub-step, so there is no invocation per sub-step); a multi-tick contact
episode can still invoke it once per blocked sweep. -/
theorem C7_hazard_per_sweep :
    (∀ solids x y w h, (collidesAt solids x y w h).2 ≤ 1 ∧
      ((collidesAt solids x y w h).1 = false → (collidesAt solids x y w h).2 = 0)) ∧
    (∀ (solids : List Solid) (t : ActorTuning) (axis : Axis) (s : ActorState) (amount : ℚ),
      (actorMoveC (collidesAt solids) t axis s amount).2.2 ≤ 1) := by
  refine ⟨fun solids x y w h => collidesAt_spec solids x y w h,
    fun solids t axis s amount => ?_⟩
  apply moveGoC_count_le_one
  intro x y w h
  exact ⟨(collidesAt_spec solids x y w h).2, (collidesAt_spec solids x y w h).1⟩

/-- C7 witness: against the hazard world, a vertical sweep invokes the
callback at most once, and a clear query far from the hazard performs
zero invocations. -/
theorem C7_hazard_per_sweep_witness :
    (actorMoveC (collidesAt c7solids) c7tuning .y c7s (3/2)).2.2 ≤ 1 ∧
    (collidesAt c7solids 10 10 1 1).2 = 0 := by
  have h := C7_hazard_per_sweep
  refine ⟨h.2 c7solids c7tuning .y c7s (3/2), (h.1 c7solids 10 10 1 1).2 ?_⟩
  norm_num [collidesAt, c7solids, rectOverlapsSolid, c7hazard]

/-- C7 counterexample: the fixture actor's hitbox overlaps the hazard at
the start of the tick (a one-tick contact episode), yet the tick invokes
the hazard callback twice: once from the blocked X sweep and once from
the blocked Y sweep — not exactly once per contact episode. -/
theorem C7_counterexample :
    rectOverlapsSolid (getSolidBox c7tuning c7s.x c7s.y).1
      (getSolidBox c7tuning c7s.x c7s.y).2.1
      (getSolidBox c7tuning c7s.x c7s.y).2.2.1
      (getSolidBox c7tuning c7s.x c7s.y).2.2.2 c7hazard = true ∧
    (actorTickC (collidesAt c7solids) c7tuning false 1 c7s).2 = 2 := by
  constructor
  · norm_num [rectOverlapsSolid, getSolidBox, c7tuning, c7s, c7hazard]
  · norm_num [actorTickC, moveXC, moveYC, actorMoveC, updateMovementPhysics, dampen,
      mathSign, blockedAtC, getSolidBox, collidesAt, rectOverlapsSolid, c7tuning, c7s,
      c7solids, c7hazard, TUNING_DEFAULTS, min_def, abs_eq_max_neg, max_def,
      moveGoC_stop, moveGoCX_hit, moveGoCY_hit, moveGoCX_cont, moveGoCY_cont]

end Pucky

namespace Pucky

theorem moveX_velX_cases (check : CollisionCheckFn) (t : ActorTuning) (dt : ℚ)
    (s : ActorState) :
    (moveX check t dt s).velX = s.velX ∨ (moveX check t dt s).velX = 0 := by
  by_cases hh : (actorMove check t .x s (s.velX * dt)).2 = true
  · right
    have h := (moveGoX_spec check t (mathSign (s.velX * dt)) s |s.velX * dt|).2.2.2.2.2.1 hh
    simpa [moveX, actorMove] using h
  · left
    have hh2 : (actorMove check t .x s (s.velX * dt)).2 = false := by
      simpa using hh
    have h := ((moveGoX_spec check t (mathSign (s.velX * dt)) s |s.velX * dt|).2.2.2.2.2.2 hh2).1
    simpa [moveX, actorMove] using h

theorem moveY_velX (check : CollisionCheckFn) (t : ActorTuning) (dt : ℚ)
    (s : ActorState) :
    (moveY check t dt s).velX = s.velX := by
  have hpres : (actorMove check t .y { s with isOnGround := false } (s.velY * dt)).1.velX
      = s.velX := by
    have h := (moveGoY_spec check t (mathSign (s.velY * dt))
      { s with isOnGround := false } |s.velY * dt|).2.1
    simpa [actorMove] using h
  by_cases hr : (actorMove check t .y { s with isOnGround := false } (s.velY * dt)).2 = true
  · by_cases hpos : 0 < mathSign (s.velY * dt)
    · simp [moveY, hr, hpos, hpres]
    · by_cases hneg : mathSign (s.velY * dt) < 0
      · simp [moveY, hr, hpos, hneg, tryCornerWiggle_velX, hpres]
      · simp [moveY, hr, hpos, hneg, hpres]
  · simp [moveY, hr, hpres]

theorem moveY_isOnGround_of_miss (check : CollisionCheckFn) (t : ActorTuning) (dt : ℚ)
    (s : ActorState)
    (hmiss : (actorMove check t .y { s with isOnGround := false } (s.velY * dt)).2 = false) :
    (moveY check t dt s).isOnGround = false := by
  have hg : (actorMove check t .y { s with isOnGround := false } (s.velY * dt)).1.isOnGround
      = false := by
    have h := (moveGoY_spec check t (mathSign (s.velY * dt))
      { s with isOnGround := false } |s.velY * dt|).2.2.1
    simpa [actorMove] using h
  simp [moveY, hmiss, hg]

theorem actorTick_checkNone (t : ActorTuning) (held : Bool) (dt : ℚ) (s : ActorState) :
    (actorTick checkNone t held dt s).isOnGround = false ∧
    (actorTick checkNone t held dt s).velX = (updateMovementPhysics t held dt s).1.velX := by
  unfold actorTick
  constructor
  · apply moveY_isOnGround_of_miss
    exact moveGo_checkNone t .y _ _ _
  · rw [moveY_velX]
    have hmiss : (actorMove checkNone t .x (updateMovementPhysics t held dt s).1
        ((updateMovementPhysics t held dt s).1.velX * dt)).2 = false :=
      moveGo_checkNone t .x _ _ _
    have hpres := ((moveGoX_spec checkNone t
      (mathSign ((updateMovementPhysics t held dt s).1.velX * dt))
      (updateMovementPhysics t held dt s).1
      |(updateMovementPhysics t held dt s).1.velX * dt|).2.2.2.2.2.2 hmiss).1
    simpa [moveX, actorMove] using hpres

end Pucky

namespace Pucky

theorem dampen_abs_le {vx tv f M : ℚ} (h1 : |vx| ≤ M) (h2 : |tv| ≤ M)
    (hf0 : 0 ≤ f) (hf1 : f ≤ 1) : |dampen vx tv f| ≤ M := by
  obtain ⟨a1, a2⟩ := abs_le.mp h1
  obtain ⟨b1, b2⟩ := abs_le.mp h2
  rw [dampen, abs_le]
  constructor <;>
    nlinarith [mul_nonneg (by linarith : (0:ℚ) ≤ 1 - f) (by linarith : 0 ≤ M - vx),
      mul_nonneg hf0 (by linarith : 0 ≤ M - tv),
      mul_nonneg (by linarith : (0:ℚ) ≤ 1 - f) (by linarith : 0 ≤ vx + M),
      mul_nonneg hf0 (by linarith : 0 ≤ tv + M)]

/-- C8 amended: the easing step alone (no clamping anywhere) maintains
the single bound `|vx| <= maxSpeedX` at every tick boundary — through
the integrator step, through the X sweep (which can only zero vx) and
through the Y sweep (which never touches vx). The claimed airborne bound
maxSpeedX * airSpeedFactor is NOT an invariant: it can be exceeded
transiently right after leaving the ground at grounded speed. -/
theorem C8_speed_bound (check : CollisionCheckFn) (t : ActorTuning) (held : Bool)
    (dt : ℚ) (s : ActorState)
    (hvx : |s.velX| ≤ t.maxSpeedX)
    (hin : s.inputX = -1 ∨ s.inputX = 0 ∨ s.inputX = 1)
    (hms : 0 ≤ t.maxSpeedX) (haf0 : 0 ≤ t.airSpeedFactor) (haf1 : t.airSpeedFactor ≤ 1)
    (heg0 : 0 ≤ t.easeGround) (heg1 : t.easeGround ≤ 1)
    (hea0 : 0 ≤ t.easeAir) (hea1 : t.easeAir ≤ 1)
    (het0 : 0 ≤ t.easeTurnMultiplier) (het1 : t.easeTurnMultiplier ≤ 1) :
    |(updateMovementPhysics t held dt s).1.velX| ≤ t.maxSpeedX ∧
    |(moveX check t dt s).velX| ≤ t.maxSpeedX ∧
    (moveY check t dt s).velX = s.velX := by
  refine ⟨?_, ?_, moveY_velX check t dt s⟩
  · have htv : ∀ msel : ℚ, 0 ≤ msel → msel ≤ t.maxSpeedX →
        |(s.inputX : ℚ) * msel| ≤ t.maxSpeedX := by
      intro msel h0 h1
      rcases hin with hi | hi | hi <;> rw [hi] <;> push_cast <;>
        simp [abs_mul, abs_of_nonneg h0] <;> linarith
    have hmsel0 : 0 ≤ t.maxSpeedX * t.airSpeedFactor := mul_nonneg hms haf0
    have hmsel1 : t.maxSpeedX * t.airSpeedFactor ≤ t.maxSpeedX := by nlinarith
    have hf1 : 0 ≤ t.easeGround * t.easeTurnMultiplier := mul_nonneg heg0 het0
    have hf2 : t.easeGround * t.easeTurnMultiplier ≤ 1 := by nlinarith
    have hf3 : 0 ≤ t.easeAir * t.easeTurnMultiplier := mul_nonneg hea0 het0
    have hf4 : t.easeAir * t.easeTurnMultiplier ≤ 1 := by nlinarith
    simp only [updateMovementPhysics]
    split_ifs <;> first
      | exact htv t.maxSpeedX hms le_rfl
      | exact dampen_abs_le hvx (htv t.maxSpeedX hms le_rfl) hf1 hf2
      | exact dampen_abs_le hvx (htv t.maxSpeedX hms le_rfl) heg0 heg1
      | exact dampen_abs_le hvx (htv t.maxSpeedX hms le_rfl) hf3 hf4
      | exact dampen_abs_le hvx (htv t.maxSpeedX hms le_rfl) hea0 hea1
      | exact dampen_abs_le hvx (htv (t.maxSpeedX * t.airSpeedFactor) hmsel0 hmsel1) hf1 hf2
      | exact dampen_abs_le hvx (htv (t.maxSpeedX * t.airSpeedFactor) hmsel0 hmsel1) heg0 heg1
      | exact dampen_abs_le hvx (htv (t.maxSpeedX * t.airSpeedFactor) hmsel0 hmsel1) hf3 hf4
      | exact dampen_abs_le hvx (htv (t.maxSpeedX * t.airSpeedFactor) hmsel0 hmsel1) hea0 hea1
  · rcases moveX_velX_cases check t dt s with h | h <;> rw [h]
    · exact hvx
    · simpa using hms

end Pucky

namespace Pucky

/-- C8 counterexample: a grounded actor running at vx = 2.8 (within the
claimed grounded bound 3) walks off into empty space in one tick: the
tick ends airborne with vx = 2.827, violating the claimed airborne bound
maxSpeedX * airSpeedFactor = 2.7 at a tick boundary. -/
theorem C8_counterexample :
    |c8pre.velX| ≤ TUNING_DEFAULTS.maxSpeedX ∧ c8pre.isOnGround = true ∧
    (actorTick checkNone TUNING_DEFAULTS false 1 c8pre).isOnGround = false ∧
    ¬(|(actorTick checkNone TUNING_DEFAULTS false 1 c8pre).velX| ≤
        TUNING_DEFAULTS.maxSpeedX * TUNING_DEFAULTS.airSpeedFactor) := by
  have h := actorTick_checkNone TUNING_DEFAULTS false 1 c8pre
  have hv : (updateMovementPhysics TUNING_DEFAULTS false 1 c8pre).1.velX = 2827/1000 := by
    norm_num [updateMovementPhysics, c8pre, TUNING_DEFAULTS, dampen, mathSign,
      abs_eq_max_neg, max_def]
  refine ⟨by norm_num [c8pre, TUNING_DEFAULTS, abs_eq_max_neg, max_def], rfl, h.1, ?_⟩
  rw [h.2, hv]
  norm_num [TUNING_DEFAULTS, abs_eq_max_neg, max_def]

/-- C8 witness: the amended bound theorem applied at the concrete edge
state and default tuning. -/
theorem C8_speed_bound_witness :
    |(updateMovementPhysics TUNING_DEFAULTS false 1 c8pre).1.velX| ≤
      TUNING_DEFAULTS.maxSpeedX ∧
    |(moveX checkNone TUNING_DEFAULTS 1 c8pre).velX| ≤ TUNING_DEFAULTS.maxSpeedX ∧
    (moveY checkNone TUNING_DEFAULTS 1 c8pre).velX = c8pre.velX := by
  exact C8_speed_bound checkNone TUNING_DEFAULTS false 1 c8pre
    (by norm_num [c8pre, TUNING_DEFAULTS, abs_eq_max_neg, max_def])
    (Or.inr (Or.inr rfl))
    (by norm_num [TUNING_DEFAULTS]) (by norm_num [TUNING_DEFAULTS])
    (by norm_num [TUNING_DEFAULTS]) (by norm_num [TUNING_DEFAULTS])
    (by norm_num [TUNING_DEFAULTS]) (by norm_num [TUNING_DEFAULTS])
    (by norm_num [TUNING_DEFAULTS]) (by norm_num [TUNING_DEFAULTS])
    (by norm_num [TUNING_DEFAULTS])

/-- C6 counterexample: with a skid in progress (isSkidding true, pre-skid
inputAxis 1, still fast and grounded), a move call requesting the
opposite direction bypasses the skid guard and sets inputAxis to -1
immediately, before the skid delay fires. -/
theorem C6_counterexample :
    c6mid.isSkidding = true ∧ c6mid.actor.inputX = 1 ∧
    (Player.move (-1) c6mid).actor.inputX = -1 := by
  refine ⟨rfl, rfl, ?_⟩
  norm_num [Player.move, Player.triggerTurnSkid, Player.setAnimationState, mathSign,
    c6mid, c6pre, Player.turnAnticipationThreshold, abs_eq_max_neg, max_def]

/-- C6 amended: only the call that TRIGGERS the skid (grounded, nonzero
requested direction opposing velocity above the turn threshold, not
already skidding) holds `inputAxis` at its pre-skid value — the
requested direction is applied later by the deferred callback; any
move/moveLeft/moveRight/stop call made while `isSkidding` is already
true falls through to setInputX and changes `inputAxis` immediately. -/
theorem C6_skid_input (p : Player.PlayerState) (dir : Int) :
    (p.actor.isOnGround = true → dir ≠ 0 → mathSign p.actor.velX ≠ (dir : ℚ) →
      |p.actor.velX| > Player.turnAnticipationThreshold → p.isSkidding = false →
      (Player.move dir p).actor.inputX = p.actor.inputX ∧
      (Player.move dir p).isSkidding = true) ∧
    (p.isSkidding = true → (Player.move dir p).actor.inputX = dir) := by
  constructor
  · intro hg hd hs hf hns
    constructor <;>
      simp [Player.move, hg, hd, hs, hf, hns, Player.triggerTurnSkid,
        Player.setAnimationState] <;>
      split_ifs <;> simp
  · intro hsk
    simp only [Player.move, hsk]
    split_ifs <;> simp_all

/-- C6 witness: the triggering call on the fast-running non-skidding
player keeps inputAxis at 1 and raises isSkidding; the same call on the
mid-skid player changes inputAxis at once. -/
theorem C6_skid_input_witness :
    (Player.move (-1) c6pre).actor.inputX = c6pre.actor.inputX ∧
    (Player.move (-1) c6pre).isSkidding = true ∧
    (Player.move (-1) c6mid).actor.inputX = -1 := by
  have h1 := (C6_skid_input c6pre (-1)).1 rfl (by norm_num)
    (by norm_num [c6pre, mathSign]) (by norm_num [c6pre, Player.turnAnticipationThreshold,
      abs_eq_max_neg, max_def]) rfl
  exact ⟨h1.1, h1.2, (C6_skid_input c6mid (-1)).2 rfl⟩

end Pucky

namespace Pucky

theorem c9tick_step (s : ActorState) (hg : s.isOnGround = true) (hw : s.wasOnGround = true)
    (hi : s.inputX = 1) (h0 : 0 ≤ s.velX) (h3 : s.velX < 3) :
    s.velX < (c9tick s).velX ∧ (c9tick s).velX < 3 ∧ 0 ≤ (c9tick s).velX ∧
    (c9tick s).isOnGround = true ∧ (c9tick s).wasOnGround = true ∧
    (c9tick s).inputX = 1 := by
  have hfields : (c9tick s).isOnGround = s.isOnGround ∧
      (c9tick s).wasOnGround = s.isOnGround ∧ (c9tick s).inputX = s.inputX :=
    ⟨rfl, rfl, rfl⟩
  rcases eq_or_lt_of_le h0 with hz | hp
  · have hsign : mathSign 1 ≠ mathSign s.velX := by
      rw [← hz]
      norm_num [mathSign]
    have hv : (c9tick s).velX = s.velX + (3 - s.velX) * (27/200 * (1/4)) := by
      simp [c9tick, updateMovementPhysics, TUNING_DEFAULTS, hg, hw, hi, hsign, dampen]
    refine ⟨?_, ?_, ?_, hfields.1.trans hg, hfields.2.1.trans hg, hfields.2.2.trans hi⟩ <;>
      rw [hv, ← hz] <;> norm_num
  · have hsign : mathSign 1 = mathSign s.velX := by
      rw [mathSign_of_pos hp]
      norm_num [mathSign]
    have hv : (c9tick s).velX = s.velX + (3 - s.velX) * (27/200) := by
      simp [c9tick, updateMovementPhysics, TUNING_DEFAULTS, hg, hw, hi, hsign, dampen]
    refine ⟨?_, ?_, ?_, hfields.1.trans hg, hfields.2.1.trans hg, hfields.2.2.trans hi⟩ <;>
      rw [hv] <;> nlinarith

/-- C9: from rest on the ground with input held right for 30 ticks at
dt = 1, easeGround = 0.135, maxSpeedX = 3 (default tuning, actor
grounded throughout), the vx sequence is strictly increasing and never
exceeds 3 at any tick. -/
theorem C9_monotone_no_overshoot :
    (∀ n, n < 30 → c9vx n < c9vx (n + 1)) ∧ (∀ n, n ≤ 30 → c9vx n ≤ 3) := by
  have inv : ∀ n, (c9tick^[n] c9start).isOnGround = true ∧
      (c9tick^[n] c9start).wasOnGround = true ∧ (c9tick^[n] c9start).inputX = 1 ∧
      0 ≤ (c9tick^[n] c9start).velX ∧ (c9tick^[n] c9start).velX < 3 := by
    intro n
    induction n with
    | zero => exact ⟨rfl, rfl, rfl, le_rfl, by norm_num [c9start]⟩
    | succ k ih =>
      obtain ⟨hg, hw, hi, h0, h3⟩ := ih
      have hs := c9tick_step _ hg hw hi h0 h3
      rw [Function.iterate_succ_apply']
      exact ⟨hs.2.2.2.1, hs.2.2.2.2.1, hs.2.2.2.2.2, hs.2.2.1, hs.2.1⟩
  constructor
  · intro n hn
    obtain ⟨hg, hw, hi, h0, h3⟩ := inv n
    have hs := c9tick_step _ hg hw hi h0 h3
    unfold c9vx
    rw [Function.iterate_succ_apply']
    exact hs.1
  · intro n hn
    exact le_of_lt (inv n).2.2.2.2

end Pucky

namespace Pucky

/-- C9 witness: the first tick strictly increases vx, and vx at tick 30
is still at most 3. -/
theorem C9_monotone_no_overshoot_witness : c9vx 0 < c9vx 1 ∧ c9vx 30 ≤ 3 :=
  ⟨C9_monotone_no_overshoot.1 0 (by norm_num), C9_monotone_no_overshoot.2 30 le_rfl⟩

end Pucky
